import Mathlib

/-!
A shallow embedding of the GitGuard backup pipeline, translated from
src/github_backup.py (prefix GB) and src/lambda_function.py (prefix
LF).  External effects are passed in as explicit oracle arguments: fs
for os.path.exists, net for the HTTP client keyed by endpoint path,
tarOk for the tar subprocess, and explicit result values for the S3
client and the git subprocess.  Each Python function becomes a pure
function from those oracles to its observable actions and recorded
results; Python exceptions are modelled with Except, and a function
that catches all its exceptions is total.
-/

/-- Helper for the Python substring test, on lists of characters:
true when needle occurs contiguously inside hay. -/
def subOf (needle : List Char) : List Char → Bool
  | [] => needle.isEmpty
  | c :: t => needle.isPrefixOf (c :: t) || subOf needle t

/-- The Python operator in on strings: needle occurs contiguously in
hay, as in the source expression repo_name in metadata_file. -/
def strIn (needle hay : String) : Bool :=
  subOf needle.toList hay.toList

/-- Python str.endswith, as in metadata_file.endswith in the source. -/
def strEndsWith (hay suffix : String) : Bool :=
  suffix.toList.reverse.isPrefixOf hay.toList.reverse

/-- Result of one HTTP request made with the requests library: either a
response carrying a status code and a body, or a transport-level
exception raised during the request. -/
inductive HttpOutcome where
  | response (status : Nat) (body : String)
  | exn (msg : String)
  deriving DecidableEq

/-- Whether the request raised instead of returning a response. -/
def HttpOutcome.isExn : HttpOutcome → Bool
  | HttpOutcome.exn _ => true
  | HttpOutcome.response _ _ => false

/-- The fixed metadata endpoint catalog (endpoint path, artifact
label); the metadata_items list is written out identically in
backup_all_metadata of both source files. -/
def metadata_items : List (String × String) :=
  [("releases", "releases"),
   ("issues", "issues"),
   ("pulls", "pull_requests"),
   ("collaborators", "collaborators"),
   ("labels", "labels"),
   ("milestones", "milestones"),
   ("comments", "commit_comments"),
   ("forks", "forks"),
   ("projects", "projects"),
   ("actions/workflows", "actions_workflows"),
   ("actions/secrets", "actions_secrets"),
   ("hooks", "webhooks")]

/-- A git subprocess invocation issued by the mirror synchronizer. -/
inductive GitCmd where
  | clone (url dest : String)
  | fetch (dest : String)
  deriving DecidableEq

/-- The argv handed to subprocess.run for a git command. -/
def GitCmd.argv : GitCmd → List String
  | GitCmd.clone url dest => ["git", "clone", "--mirror", url, dest]
  | GitCmd.fetch dest => ["git", "-C", dest, "fetch", "--all"]

/-- The mirror destination <backupDir>/git/<repo>/<repo> built with
os.path.join in backup_git_repo. -/
def mirrorPath (backupDir repo_name : String) : String :=
  backupDir ++ "/git/" ++ repo_name ++ "/" ++ repo_name

/-- backup_git_repo, identical in both source files up to the backup
directory constant: the git command is chosen from the presence of the
mirror path (fetch all when it exists, mirror clone otherwise). -/
def backup_git_repo (fs : String → Bool) (backupDir repo_url repo_name : String) : GitCmd :=
  if fs (mirrorPath backupDir repo_name) then
    GitCmd.fetch (mirrorPath backupDir repo_name)
  else
    GitCmd.clone repo_url (mirrorPath backupDir repo_name)

/-- What backup_git_repo can report to its caller about the git
subprocess it ran. -/
inductive SyncReport where
  | completed
  | failed (reason : String)
  | raised (msg : String)
  deriving DecidableEq

/-- True only for the failed constructor. -/
def SyncReport.isFailed : SyncReport → Bool
  | SyncReport.failed _ => true
  | _ => false

/-- backup_git_repo together with its treatment of the git exit code:
subprocess.run is called without check=True and the CompletedProcess it
returns is discarded, so the function logs completion and returns
normally whatever the exit code was. -/
def backup_git_repo_run (fs : String → Bool) (backupDir repo_url repo_name : String)
    (gitExit : Int) : GitCmd × SyncReport :=
  (backup_git_repo fs backupDir repo_url repo_name, SyncReport.completed)

/-- The backup directory constant of lambda_function.py. -/
def LF.BACKUP_DIR : String := "/tmp/backup"

/-- The backup directory constant of github_backup.py. -/
def GB.BACKUP_DIR : String := "./backup"

/-- Status recorded (at log level) by lambda_function.backup_metadata
for one endpoint: the four response branches of the if chain plus the
except branch for a requests exception. -/
inductive MetaStatus where
  | success
  | skipped
  | forbidden
  | failedStatus (code : Nat)
  | networkError (msg : String)
  deriving DecidableEq

/-- lambda_function.backup_metadata: one authenticated GET with every
failure mode handled in the function.  Returns the recorded status and
the path of the JSON file written, which exists only on HTTP 200. -/
def LF.backup_metadata (backupDir repo_name backup_file : String) (out : HttpOutcome) :
    MetaStatus × Option String :=
  match out with
  | HttpOutcome.exn m => (MetaStatus.networkError m, none)
  | HttpOutcome.response c _ =>
      if c = 200 then
        (MetaStatus.success,
         some (backupDir ++ "/" ++ repo_name ++ "_" ++ backup_file ++ ".json"))
      else if c = 404 then (MetaStatus.skipped, none)
      else if c = 403 then (MetaStatus.forbidden, none)
      else (MetaStatus.failedStatus c, none)

/-- lambda_function.backup_all_metadata: iterate the full catalog with
one attempt per entry; backup_metadata never raises, so the loop never
stops early.  net is the HTTP oracle keyed by endpoint path. -/
def LF.backup_all_metadata (backupDir repo_name : String) (net : String → HttpOutcome) :
    List (String × MetaStatus × Option String) :=
  metadata_items.map (fun p =>
    (p.2, LF.backup_metadata backupDir repo_name p.2 (net p.1)))

/-- Mark printed by github_backup.backup_metadata: only two branches
exist there, HTTP 200 (file written) or any other status (one uniform
failure message carrying the status code and body). -/
inductive GB.MetaMark where
  | success (file : String)
  | failed (code : Nat) (body : String)
  deriving DecidableEq

/-- github_backup.backup_metadata: the GET is not wrapped in try, so a
transport-level exception propagates to the caller. -/
def GB.backup_metadata (backupDir repo_name backup_file : String) (out : HttpOutcome) :
    Except String GB.MetaMark :=
  match out with
  | HttpOutcome.exn m => Except.error m
  | HttpOutcome.response c body =>
      if c = 200 then
        Except.ok (GB.MetaMark.success
          (backupDir ++ "/" ++ repo_name ++ "_" ++ backup_file ++ ".json"))
      else Except.ok (GB.MetaMark.failed c body)

/-- The catalog loop of github_backup.backup_all_metadata: an uncaught
exception in one iteration abandons the remaining entries.  Returns the
endpoint paths actually attempted, in order, and either completion or
the propagated exception. -/
def GB.runCatalog (backupDir repo_name : String) (net : String → HttpOutcome) :
    List (String × String) → List String × Except String Unit
  | [] => ([], Except.ok ())
  | p :: rest =>
      match GB.backup_metadata backupDir repo_name p.2 (net p.1) with
      | Except.error e => ([p.1], Except.error e)
      | Except.ok _ =>
          (p.1 :: (GB.runCatalog backupDir repo_name net rest).1,
           (GB.runCatalog backupDir repo_name net rest).2)

/-- github_backup.backup_all_metadata applied to the fixed catalog. -/
def GB.backup_all_metadata (backupDir repo_name : String) (net : String → HttpOutcome) :
    List String × Except String Unit :=
  GB.runCatalog backupDir repo_name net metadata_items

/-- Outcome of one S3 transfer at the boto3 boundary. -/
inductive S3Result where
  | ok
  | err (msg : String)
  deriving DecidableEq

/-- lambda_function.upload_to_s3 wraps the transfer in a try block that
catches Exception: it returns normally in both cases, and only the
logged success flag distinguishes them.  github_backup.upload_to_s3 is
identical up to the log sink. -/
def LF.upload_to_s3 : S3Result → Bool
  | S3Result.ok => true
  | S3Result.err _ => false

/-- One upload request issued against the S3 client. -/
structure UploadAction where
  localPath : String
  bucket : String
  key : String
  deriving DecidableEq

/-- lambda_function.upload_backup_to_s3: the upload requests issued for
one repository.  fs is os.path.exists, tarOk tells whether the tar
subprocess (run with check=True inside try) succeeded for a given
archive path, and stagingFiles is os.listdir of the backup directory.
A failed tar skips only that archive upload. -/
def LF.upload_backup_to_s3 (fs tarOk : String → Bool) (stagingFiles : List String)
    (repo_name bucket backupDir ts : String) : List UploadAction :=
  (if fs (backupDir ++ "/git/" ++ repo_name) then
     if tarOk (backupDir ++ "/git/" ++ repo_name ++ ".tar.gz") then
       [UploadAction.mk (backupDir ++ "/git/" ++ repo_name ++ ".tar.gz") bucket
          (repo_name ++ "/git_backup_" ++ ts ++ ".tar.gz")]
     else []
   else [])
  ++ (stagingFiles.filter (fun f => strIn repo_name f && strEndsWith f ".json")).map
       (fun f => UploadAction.mk (backupDir ++ "/" ++ f) bucket
          (repo_name ++ "/metadata/" ++ f))
  ++ (if fs (backupDir ++ "/wiki/" ++ repo_name) then
        if tarOk (backupDir ++ "/wiki/" ++ repo_name ++ ".tar.gz") then
          [UploadAction.mk (backupDir ++ "/wiki/" ++ repo_name ++ ".tar.gz") bucket
             (repo_name ++ "/wiki_backup_" ++ ts ++ ".tar.gz")]
        else []
      else [])

/-- github_backup.upload_backup_to_s3: same key layout as the lambda
variant; its metadata filter has no .json restriction and its tar call
is not checked, so the archive upload is always attempted when the
source directory exists. -/
def GB.upload_backup_to_s3 (fs : String → Bool) (stagingFiles : List String)
    (repo_name bucket backupDir ts : String) : List UploadAction :=
  (if fs (backupDir ++ "/git/" ++ repo_name) then
     [UploadAction.mk (backupDir ++ "/git/" ++ repo_name ++ ".tar.gz") bucket
        (repo_name ++ "/git_backup_" ++ ts ++ ".tar.gz")]
   else [])
  ++ (stagingFiles.filter (fun f => strIn repo_name f)).map
       (fun f => UploadAction.mk (backupDir ++ "/" ++ f) bucket
          (repo_name ++ "/metadata/" ++ f))
  ++ (if fs (backupDir ++ "/wiki/" ++ repo_name) then
        [UploadAction.mk (backupDir ++ "/wiki/" ++ repo_name ++ ".tar.gz") bucket
           (repo_name ++ "/wiki_backup_" ++ ts ++ ".tar.gz")]
      else [])

/-- The tail of the per-repository try block in
lambda_function.backup_all_repos: the upload stage, whose transfer
failures upload_to_s3 has already swallowed, followed by unconditional
deletion of the staging entries for the repository.  Returns the
per-transfer success flags, the directories removed with shutil.rmtree,
and the metadata files removed with os.remove. -/
def LF.upload_and_cleanup (uploadResults : List S3Result) (fs : String → Bool)
    (stagingFiles : List String) (repo_name backupDir : String) :
    List Bool × List String × List String :=
  (uploadResults.map LF.upload_to_s3,
   (if fs (backupDir ++ "/git/" ++ repo_name) then [backupDir ++ "/git/" ++ repo_name]
    else [])
     ++ (if fs (backupDir ++ "/wiki/" ++ repo_name) then [backupDir ++ "/wiki/" ++ repo_name]
         else []),
   stagingFiles.filter (fun f => strIn repo_name f && strEndsWith f ".json"))

/-- Result of the organization repository listing call, carrying the
parsed repository list (name, clone_url) when a response arrived. -/
inductive ListingOutcome where
  | response (status : Nat) (repos : List (String × String))
  | exn (msg : String)
  deriving DecidableEq

/-- Whether the listing call failed: any non-200 status, or a raised
network exception. -/
def ListingOutcome.isFailure : ListingOutcome → Bool
  | ListingOutcome.response s _ => decide (s ≠ 200)
  | ListingOutcome.exn _ => true

/-- Outcome recorded per repository by the loop in
lambda_function.backup_all_repos. -/
inductive RepoOutcome where
  | processed
  | errorLogged (msg : String)
  deriving DecidableEq

/-- The per-repository body of the loop in
lambda_function.backup_all_repos: the try block either completes or the
exception it raised is caught, logged, and the loop continues. -/
def LF.repoStep (pipeline : String → Except String Unit) (r : String × String) :
    String × RepoOutcome :=
  match pipeline r.1 with
  | Except.ok _ => (r.1, RepoOutcome.processed)
  | Except.error e => (r.1, RepoOutcome.errorLogged e)

/-- lambda_function.backup_all_repos: a 200 listing drives the loop
over every listed repository; per-repository exceptions are caught
inside the loop; a non-200 listing status and a listing network
exception are logged and yield an empty run, with no exception leaving
the function.  pipeline is the oracle for the per-repository body. -/
def LF.backup_all_repos (listing : ListingOutcome)
    (pipeline : String → Except String Unit) : List (String × RepoOutcome) :=
  match listing with
  | ListingOutcome.exn _ => []
  | ListingOutcome.response s repos =>
      if s = 200 then repos.map (LF.repoStep pipeline) else []

/-- lambda_handler around backup_all_repos: backup_all_repos handles
all of its failure modes internally and never raises, so for every
modelled input the handler reaches its normal return of statusCode 200
with the success body, alongside the per-repository outcomes. -/
def LF.lambda_handler_result (listing : ListingOutcome)
    (pipeline : String → Except String Unit) :
    Nat × String × List (String × RepoOutcome) :=
  (200, "Backup completed successfully", LF.backup_all_repos listing pipeline)

/-- The repository loop of github_backup.backup_all_repos: there is no
per-repository try, so the first exception abandons the remaining
repositories.  Returns the repositories whose pipeline was started, in
order, and either completion or the propagated exception. -/
def GB.runRepos (pipeline : String → Except String Unit) :
    List (String × String) → List String × Except String Unit
  | [] => ([], Except.ok ())
  | r :: rest =>
      match pipeline r.1 with
      | Except.error e => ([r.1], Except.error e)
      | Except.ok _ =>
          (r.1 :: (GB.runRepos pipeline rest).1,
           (GB.runRepos pipeline rest).2)

/-- github_backup.backup_all_repos: a 200 listing drives the unguarded
loop; a non-200 listing is only printed and the function returns
normally; a listing network exception propagates out of the function
(the script has no handler around it). -/
def GB.backup_all_repos (listing : ListingOutcome)
    (pipeline : String → Except String Unit) : List String × Except String Unit :=
  match listing with
  | ListingOutcome.exn m => ([], Except.error m)
  | ListingOutcome.response s repos =>
      if s = 200 then GB.runRepos pipeline repos
      else ([], Except.ok ())

/-- Result of the head_bucket existence check. -/
inductive HeadResult where
  | ok
  | clientError (code : String)
  deriving DecidableEq

/-- Result of the create_bucket call. -/
inductive CreateResult where
  | ok
  | err (msg : String)
  deriving DecidableEq

/-- Observable outcome of ensure_s3_bucket_exists: the bucket already
existed, it was created, or an exception left the function. -/
inductive EnsureOutcome where
  | existed
  | created
  | raisedHead (code : String)
  | raisedCreate (msg : String)
  deriving DecidableEq

/-- lambda_function.ensure_s3_bucket_exists: a ClientError from
head_bucket is inspected; only error code 404 leads to create_bucket,
any other code is re-raised, and a creation failure is re-raised. -/
def LF.ensure_s3_bucket_exists (head : HeadResult) (create : CreateResult) : EnsureOutcome :=
  match head with
  | HeadResult.ok => EnsureOutcome.existed
  | HeadResult.clientError code =>
      if code = "404" then
        match create with
        | CreateResult.ok => EnsureOutcome.created
        | CreateResult.err m => EnsureOutcome.raisedCreate m
      else EnsureOutcome.raisedHead code

/-- github_backup.ensure_s3_bucket_exists: any ClientError from
head_bucket, whatever its code, is taken to mean the bucket is absent
and create_bucket is called; a creation failure propagates since
nothing catches it. -/
def GB.ensure_s3_bucket_exists (head : HeadResult) (create : CreateResult) : EnsureOutcome :=
  match head with
  | HeadResult.ok => EnsureOutcome.existed
  | HeadResult.clientError _ =>
      match create with
      | CreateResult.ok => EnsureOutcome.created
      | CreateResult.err m => EnsureOutcome.raisedCreate m

/-- With an exception-free network oracle, the github_backup catalog
loop attempts every entry, in catalog order. -/
theorem runCatalog_attempts_all (backupDir repo_name : String)
    (net : String → HttpOutcome) (h : ∀ s, (net s).isExn = false) :
    ∀ items : List (String × String),
      (GB.runCatalog backupDir repo_name net items).1 = items.map (fun p => p.1) := by
  intro items
  induction items with
  | nil => rfl
  | cons p rest ih =>
      have hp := h p.1
      cases hn : net p.1 with
      | exn m =>
          rw [hn] at hp
          exact absurd hp (by simp [HttpOutcome.isExn])
      | response c body =>
          by_cases hc : c = 200
          · subst hc
            simp [GB.runCatalog, GB.backup_metadata, hn, ih]
          · simp [GB.runCatalog, GB.backup_metadata, hn, hc, ih]

/-- Claim C1 (amended): in lambda_function.py, metadata collection
always traverses the fixed catalog to completion, recording exactly one
entry per catalog item whatever the endpoint outcomes are; in
github_backup.py, HTTP error statuses never stop the traversal either,
but that holds only when no endpoint raises a transport-level
exception. -/
theorem c1_catalog_traversal (backupDirLF backupDirGB repo_name : String)
    (net : String → HttpOutcome) :
    ((LF.backup_all_metadata backupDirLF repo_name net).map (fun x => x.1)
        = metadata_items.map (fun p => p.2)
      ∧ (LF.backup_all_metadata backupDirLF repo_name net).length
          = metadata_items.length)
    ∧ ((∀ s, (net s).isExn = false) →
        (GB.backup_all_metadata backupDirGB repo_name net).1
          = metadata_items.map (fun p => p.1)) := by
  refine ⟨⟨rfl, rfl⟩, fun h => ?_⟩
  exact runCatalog_attempts_all backupDirGB repo_name net h metadata_items

/-- Claim C1 witness: with an oracle answering HTTP 500 everywhere, the
github_backup catalog loop still attempts all twelve endpoints. -/
theorem c1_witness :
    (GB.backup_all_metadata "./backup" "demo"
        (fun _ => HttpOutcome.response 500 "err")).1
      = metadata_items.map (fun p => p.1) :=
  (c1_catalog_traversal "/tmp/backup" "./backup" "demo"
      (fun _ => HttpOutcome.response 500 "err")).2 (fun _ => rfl)

/-- Claim C1 counterexample: in github_backup.py a transport-level
exception on the first catalog endpoint abandons the loop, so only one
of the twelve catalog entries is attempted. -/
theorem c1_counterexample :
    (GB.backup_all_metadata "./backup" "demo"
        (fun s => if s = "releases" then HttpOutcome.exn "ConnectionError"
                  else HttpOutcome.response 200 "[]")).1 = ["releases"]
    ∧ (["releases"] : List String).length ≠ metadata_items.length := by
  exact ⟨rfl, by decide⟩

/-- Claim C2 (amended): in lambda_function.py, a failing repository
pipeline is caught at the loop boundary and recorded as a logged error,
and every repository before and after it in listing order is processed
exactly as it would be on its own. -/
theorem c2_repo_isolation (pre post : List (String × String)) (name url e : String)
    (pipeline : String → Except String Unit) (h : pipeline name = Except.error e) :
    LF.backup_all_repos (ListingOutcome.response 200 (pre ++ (name, url) :: post)) pipeline
      = LF.backup_all_repos (ListingOutcome.response 200 pre) pipeline
        ++ (name, RepoOutcome.errorLogged e)
          :: LF.backup_all_repos (ListingOutcome.response 200 post) pipeline := by
  simp [LF.backup_all_repos, LF.repoStep, h]

/-- Claim C2 witness: with a pipeline raising on repository a, the run
over a then b records the failure of a and still processes b. -/
theorem c2_repo_isolation_witness :
    ((fun n => if n = "a" then Except.error "boom" else Except.ok ()) "a"
        = (Except.error "boom" : Except String Unit))
    ∧ LF.backup_all_repos (ListingOutcome.response 200 ([] ++ ("a", "ua") :: [("b", "ub")]))
        (fun n => if n = "a" then Except.error "boom" else Except.ok ())
      = LF.backup_all_repos (ListingOutcome.response 200 [])
          (fun n => if n = "a" then Except.error "boom" else Except.ok ())
        ++ ("a", RepoOutcome.errorLogged "boom")
          :: LF.backup_all_repos (ListingOutcome.response 200 [("b", "ub")])
              (fun n => if n = "a" then Except.error "boom" else Except.ok ()) :=
  ⟨rfl, c2_repo_isolation [] [("b", "ub")] "a" "ua" "boom" _ rfl⟩

/-- Claim C2 counterexample: in github_backup.py there is no
per-repository handler, so an exception while processing repository a
propagates and repository b, later in listing order, is never
processed. -/
theorem c2_counterexample :
    GB.backup_all_repos (ListingOutcome.response 200 [("a", "ua"), ("b", "ub")])
        (fun n => if n = "a" then Except.error "boom" else Except.ok ())
      = (["a"], Except.error "boom") := by
  rfl

/-- Claim C3 (amended): the staging entries removed by the cleanup in
lambda_function.backup_all_repos do not depend on the S3 transfer
results, because upload_to_s3 swallows every transfer failure; the same
directories and metadata files are deleted after failed uploads as
after successful ones. -/
theorem c3_cleanup_unconditional (uploadResults uploadResults2 : List S3Result)
    (fs : String → Bool) (stagingFiles : List String) (repo_name backupDir m : String) :
    (LF.upload_and_cleanup uploadResults fs stagingFiles repo_name backupDir).2
      = (LF.upload_and_cleanup uploadResults2 fs stagingFiles repo_name backupDir).2
    ∧ LF.upload_to_s3 (S3Result.err m) = false := by
  exact ⟨rfl, rfl⟩

/-- Claim C3 counterexample: a repository whose only S3 transfer failed
still has its git and wiki staging directories removed and its metadata
file deleted, so failed uploads do not leave the local artifacts
untouched. -/
theorem c3_counterexample :
    LF.upload_and_cleanup [S3Result.err "AccessDenied"] (fun _ => true)
        ["app_releases.json"] "app" "/tmp/backup"
      = ([false], ["/tmp/backup/git/app", "/tmp/backup/wiki/app"], ["app_releases.json"]) := by
  decide

/-- Claim C4 (amended): when the repository listing fails with any
non-200 status or a network exception, zero repositories are processed,
but the run still reports the success status: lambda_handler returns
statusCode 200 with the success body, the failure being only logged. -/
theorem c4_listing_failure_reports_success (listing : ListingOutcome)
    (pipeline : String → Except String Unit) (h : listing.isFailure = true) :
    LF.lambda_handler_result listing pipeline
      = (200, "Backup completed successfully", ([] : List (String × RepoOutcome))) := by
  cases listing with
  | exn m => rfl
  | response s repos =>
      have hs : s ≠ 200 := of_decide_eq_true h
      simp [LF.lambda_handler_result, LF.backup_all_repos, hs]

/-- Claim C4 witness: a listing network exception yields the statusCode
200 success result with zero repositories processed. -/
theorem c4_witness :
    (ListingOutcome.exn "ConnectTimeout").isFailure = true
    ∧ LF.lambda_handler_result (ListingOutcome.exn "ConnectTimeout")
        (fun _ => Except.ok ())
      = (200, "Backup completed successfully", ([] : List (String × RepoOutcome))) :=
  ⟨rfl, c4_listing_failure_reports_success (ListingOutcome.exn "ConnectTimeout")
      (fun _ => Except.ok ()) rfl⟩

/-- Claim C4 counterexample: an HTTP 403 on the listing call does abort
processing with zero repositories, but the run then reports the success
status and body, contradicting the claimed fatal failure status. -/
theorem c4_counterexample :
    LF.lambda_handler_result (ListingOutcome.response 403 []) (fun _ => Except.ok ())
      = (200, "Backup completed successfully", ([] : List (String × RepoOutcome))) := by
  rfl

/-- Claim C5: when no mirror exists at the destination path the
synchronizer issues a full mirror clone from the clone URL, and when a
mirror already exists it issues a fetch of all remote references into
it, never a re-clone. -/
theorem c5_mirror_sync_clone_or_fetch (fs : String → Bool)
    (backupDir repo_url repo_name : String) :
    (fs (mirrorPath backupDir repo_name) = false →
      backup_git_repo fs backupDir repo_url repo_name
        = GitCmd.clone repo_url (mirrorPath backupDir repo_name))
    ∧ (fs (mirrorPath backupDir repo_name) = true →
      backup_git_repo fs backupDir repo_url repo_name
        = GitCmd.fetch (mirrorPath backupDir repo_name)) := by
  constructor <;> intro h <;> simp [backup_git_repo, h]

/-- Claim C5 witness: on an empty filesystem the synchronizer issues
the mirror clone for the demo repository. -/
theorem c5_mirror_sync_clone_or_fetch_witness :
    ((fun _ => false) (mirrorPath "/tmp/backup" "demo") = false)
    ∧ backup_git_repo (fun _ => false) "/tmp/backup" "https://x/demo.git" "demo"
      = GitCmd.clone "https://x/demo.git" (mirrorPath "/tmp/backup" "demo") :=
  ⟨rfl, (c5_mirror_sync_clone_or_fetch (fun _ => false) "/tmp/backup"
      "https://x/demo.git" "demo").1 rfl⟩

/-- Claim C6 (amended): a non-zero exit from the git mirror clone or
fetch subprocess is never raised, but it is not reported either:
backup_git_repo discards the subprocess result and completes with no
failure status, identically for every exit code. -/
theorem c6_exit_code_ignored (fs : String → Bool)
    (backupDir repo_url repo_name : String) (gitExit gitExit2 : Int) :
    backup_git_repo_run fs backupDir repo_url repo_name gitExit
      = backup_git_repo_run fs backupDir repo_url repo_name gitExit2
    ∧ (backup_git_repo_run fs backupDir repo_url repo_name gitExit).2
      = SyncReport.completed := by
  exact ⟨rfl, rfl⟩

/-- Claim C6 counterexample: a mirror clone whose git subprocess exits
with code 128 is reported as plain completion, not as a failed(reason)
status. -/
theorem c6_counterexample :
    (backup_git_repo_run (fun _ => false) "/tmp/backup" "https://x/demo.git" "demo" 128).2
      = SyncReport.completed
    ∧ SyncReport.isFailed
        (backup_git_repo_run (fun _ => false) "/tmp/backup" "https://x/demo.git" "demo" 128).2
      = false := by
  exact ⟨rfl, rfl⟩

/-- Claim C7 (amended): in lambda_function.py an HTTP 200 response is
persisted to <backupDir>/<repo>_<label>.json and marked success, a 404
is marked skipped with no file, a 403 is marked forbidden, any other
status is marked with that status code, and a transport exception is
marked as a network error, all five marks distinct constructors. -/
theorem c7_metadata_status_handling
    (backupDir repo_name backup_file body m : String) (c : Nat) :
    LF.backup_metadata backupDir repo_name backup_file (HttpOutcome.response 200 body)
      = (MetaStatus.success,
         some (backupDir ++ "/" ++ repo_name ++ "_" ++ backup_file ++ ".json"))
    ∧ LF.backup_metadata backupDir repo_name backup_file (HttpOutcome.response 404 body)
      = (MetaStatus.skipped, none)
    ∧ LF.backup_metadata backupDir repo_name backup_file (HttpOutcome.response 403 body)
      = (MetaStatus.forbidden, none)
    ∧ (c ≠ 200 → c ≠ 404 → c ≠ 403 →
        LF.backup_metadata backupDir repo_name backup_file (HttpOutcome.response c body)
          = (MetaStatus.failedStatus c, none))
    ∧ LF.backup_metadata backupDir repo_name backup_file (HttpOutcome.exn m)
      = (MetaStatus.networkError m, none) := by
  refine ⟨rfl, rfl, rfl, fun h1 h2 h3 => ?_, rfl⟩
  simp [LF.backup_metadata, h1, h2, h3]

/-- Claim C7 witness: an HTTP 500 on the releases endpoint is marked
with its status code and writes no file. -/
theorem c7_witness :
    ((500 : Nat) ≠ 200)
    ∧ LF.backup_metadata "/tmp/backup" "demo" "releases" (HttpOutcome.response 500 "oops")
      = (MetaStatus.failedStatus 500, none) :=
  ⟨by decide,
   (c7_metadata_status_handling "/tmp/backup" "demo" "releases" "oops" "m" 500).2.2.2.1
     (by decide) (by decide) (by decide)⟩

/-- Claim C7 counterexample: in github_backup.py an HTTP 404 on an
endpoint is marked with the same failed mark as any other non-200
status, not as a skipped non-error, so the claimed 404 and 403
distinctions do not hold there. -/
theorem c7_counterexample :
    GB.backup_metadata "./backup" "demo" "actions_workflows"
        (HttpOutcome.response 404 "Not Found")
      = Except.ok (GB.MetaMark.failed 404 "Not Found") := by
  rfl

/-- Claim C8 (amended): lambda_function.ensure_s3_bucket_exists is
idempotent create-if-absent exactly as claimed: an existing bucket
succeeds without creation, head error code 404 leads to creation, any
other head error code and any creation failure is re-raised.  In
github_backup.py, however, every ClientError from the existence check,
including a permission error, is treated as bucket-absent and triggers
creation. -/
theorem c8_ensure_bucket (create : CreateResult) :
    LF.ensure_s3_bucket_exists HeadResult.ok create = EnsureOutcome.existed
    ∧ LF.ensure_s3_bucket_exists (HeadResult.clientError "404") CreateResult.ok
      = EnsureOutcome.created
    ∧ LF.ensure_s3_bucket_exists (HeadResult.clientError "404") (CreateResult.err "denied")
      = EnsureOutcome.raisedCreate "denied"
    ∧ (∀ code, code ≠ "404" →
        LF.ensure_s3_bucket_exists (HeadResult.clientError code) create
          = EnsureOutcome.raisedHead code)
    ∧ (∀ code, GB.ensure_s3_bucket_exists (HeadResult.clientError code) CreateResult.ok
        = EnsureOutcome.created) := by
  refine ⟨rfl, rfl, rfl, fun code hc => ?_, fun code => rfl⟩
  simp [LF.ensure_s3_bucket_exists, hc]

/-- Claim C8 witness: a 403 from the existence check is re-raised by
the lambda variant instead of being treated as bucket-absent. -/
theorem c8_witness :
    (("403" : String) ≠ "404")
    ∧ LF.ensure_s3_bucket_exists (HeadResult.clientError "403") CreateResult.ok
      = EnsureOutcome.raisedHead "403" :=
  ⟨by decide, (c8_ensure_bucket CreateResult.ok).2.2.2.1 "403" (by decide)⟩

/-- Claim C8 counterexample: in github_backup.py a permission error
(ClientError code 403) on the existence check is treated as absent, so
the bucket creation call is made instead of the error being
re-raised. -/
theorem c8_counterexample :
    GB.ensure_s3_bucket_exists (HeadResult.clientError "403") CreateResult.ok
      = EnsureOutcome.created := by
  rfl

/-- Claim C9: every upload action issued for a repository uses one of
exactly three key layouts: <repo>/git_backup_<date>.tar.gz for the git
archive, <repo>/wiki_backup_<date>.tar.gz for the wiki archive, or
<repo>/metadata/<filename> for a metadata file from the staging area;
this holds in both source files. -/
theorem c9_s3_key_layout (fs tarOk : String → Bool) (stagingFiles : List String)
    (repo_name bucket backupDir ts : String) (a : UploadAction) :
    (a ∈ LF.upload_backup_to_s3 fs tarOk stagingFiles repo_name bucket backupDir ts →
      a.key = repo_name ++ "/git_backup_" ++ ts ++ ".tar.gz"
      ∨ a.key = repo_name ++ "/wiki_backup_" ++ ts ++ ".tar.gz"
      ∨ ∃ f, f ∈ stagingFiles ∧ a.key = repo_name ++ "/metadata/" ++ f)
    ∧ (a ∈ GB.upload_backup_to_s3 fs stagingFiles repo_name bucket backupDir ts →
      a.key = repo_name ++ "/git_backup_" ++ ts ++ ".tar.gz"
      ∨ a.key = repo_name ++ "/wiki_backup_" ++ ts ++ ".tar.gz"
      ∨ ∃ f, f ∈ stagingFiles ∧ a.key = repo_name ++ "/metadata/" ++ f) := by
  constructor
  · intro h
    unfold LF.upload_backup_to_s3 at h
    rcases List.mem_append.mp h with hgm | hw
    · rcases List.mem_append.mp hgm with hg | hm
      · split at hg
        · split at hg
          · rw [List.mem_singleton] at hg
            subst hg
            exact Or.inl rfl
          · exact absurd hg (List.not_mem_nil a)
        · exact absurd hg (List.not_mem_nil a)
      · rcases List.mem_map.mp hm with ⟨f, hf, hfa⟩
        rcases List.mem_filter.mp hf with ⟨hfs, _⟩
        subst hfa
        exact Or.inr (Or.inr ⟨f, hfs, rfl⟩)
    · split at hw
      · split at hw
        · rw [List.mem_singleton] at hw
          subst hw
          exact Or.inr (Or.inl rfl)
        · exact absurd hw (List.not_mem_nil a)
      · exact absurd hw (List.not_mem_nil a)
  · intro h
    unfold GB.upload_backup_to_s3 at h
    rcases List.mem_append.mp h with hgm | hw
    · rcases List.mem_append.mp hgm with hg | hm
      · split at hg
        · rw [List.mem_singleton] at hg
          subst hg
          exact Or.inl rfl
        · exact absurd hg (List.not_mem_nil a)
      · rcases List.mem_map.mp hm with ⟨f, hf, hfa⟩
        rcases List.mem_filter.mp hf with ⟨hfs, _⟩
        subst hfa
        exact Or.inr (Or.inr ⟨f, hfs, rfl⟩)
    · split at hw
      · rw [List.mem_singleton] at hw
        subst hw
        exact Or.inr (Or.inl rfl)
      · exact absurd hw (List.not_mem_nil a)

/-- Claim C9 witness: on a staging area holding the demo repository and
one metadata file, the git archive action is among the issued uploads
and its key satisfies the layout disjunction. -/
theorem c9_witness :
    (UploadAction.mk "/tmp/backup/git/demo.tar.gz" "bkt" "demo/git_backup_2026-10-12.tar.gz"
        ∈ LF.upload_backup_to_s3 (fun _ => true) (fun _ => true) ["demo_releases.json"]
            "demo" "bkt" "/tmp/backup" "2026-10-12")
    ∧ ((UploadAction.mk "/tmp/backup/git/demo.tar.gz" "bkt"
          "demo/git_backup_2026-10-12.tar.gz").key
        = "demo" ++ "/git_backup_" ++ "2026-10-12" ++ ".tar.gz"
      ∨ (UploadAction.mk "/tmp/backup/git/demo.tar.gz" "bkt"
          "demo/git_backup_2026-10-12.tar.gz").key
        = "demo" ++ "/wiki_backup_" ++ "2026-10-12" ++ ".tar.gz"
      ∨ ∃ f, f ∈ ["demo_releases.json"]
          ∧ (UploadAction.mk "/tmp/backup/git/demo.tar.gz" "bkt"
              "demo/git_backup_2026-10-12.tar.gz").key
            = "demo" ++ "/metadata/" ++ f) :=
  ⟨by decide,
   (c9_s3_key_layout (fun _ => true) (fun _ => true) ["demo_releases.json"]
      "demo" "bkt" "/tmp/backup" "2026-10-12"
      (UploadAction.mk "/tmp/backup/git/demo.tar.gz" "bkt"
        "demo/git_backup_2026-10-12.tar.gz")).1 (by decide)⟩

/-- The empty needle occurs in every haystack. -/
theorem subOf_nil (l : List Char) : subOf [] l = true := by
  cases l with
  | nil => rfl
  | cons c t => rfl

/-- Every list of characters is a prefix of itself. -/
theorem isPrefixOf_self (l : List Char) : l.isPrefixOf l = true := by
  induction l with
  | nil => rfl
  | cons a t ih => simp [List.isPrefixOf, ih]

/-- Extending the haystack on the right preserves isPrefixOf. -/
theorem isPrefixOf_append_right (n l t : List Char) (h : n.isPrefixOf l = true) :
    n.isPrefixOf (l ++ t) = true := by
  induction n generalizing l with
  | nil =>
      cases l ++ t with
      | nil => rfl
      | cons x xs => rfl
  | cons a as ih =>
      cases l with
      | nil => simp [List.isPrefixOf] at h
      | cons b bs =>
          simp only [List.cons_append, List.isPrefixOf, Bool.and_eq_true] at h ⊢
          exact ⟨h.1, ih bs h.2⟩

/-- The Python fact behind the cross-talk: a substring of s is a
substring of s followed by anything. -/
theorem subOf_append_right (n hay t : List Char) (hsub : subOf n hay = true) :
    subOf n (hay ++ t) = true := by
  induction hay with
  | nil =>
      cases n with
      | nil => exact subOf_nil t
      | cons a as => simp [subOf, List.isEmpty] at hsub
  | cons c rest ih =>
      simp only [subOf, Bool.or_eq_true] at hsub
      simp only [List.cons_append, subOf, Bool.or_eq_true]
      rcases hsub with hpre | hrest
      · exact Or.inl (isPrefixOf_append_right n (c :: rest) t hpre)
      · exact Or.inr (ih hrest)

/-- Lifting of the substring fact to strings: the Python test a in b
implies a in b ++ s. -/
theorem strIn_append_right (a b s : String) (h : strIn a b = true) :
    strIn a (b ++ s) = true := by
  unfold strIn at h ⊢
  have hd : (b ++ s).toList = b.toList ++ s.toList := by
    simp [String.toList, String.data_append]
  rw [hd]
  exact subOf_append_right a.toList b.toList s.toList h

/-- A string obtained by appending a suffix ends with that suffix. -/
theorem strEndsWith_of_append (g s : String) : strEndsWith (g ++ s) s = true := by
  unfold strEndsWith
  have hd : (g ++ s).toList = g.toList ++ s.toList := by
    simp [String.toList, String.data_append]
  rw [hd, List.reverse_append]
  exact isPrefixOf_append_right s.toList.reverse s.toList.reverse g.toList.reverse
    (isPrefixOf_self s.toList.reverse)

/-- Claim C10: for every pair of repository names in which the name of
the repository being processed occurs as a substring of the other, and
every artifact label, the selection test repo_name in metadata_file
matches the other repository's metadata file <longName>_<label>.json;
whenever that file is in the staging listing, lambda_function uploads
it under the key prefix of the processed repository and the cleanup of
the same iteration deletes it from the staging area, and the
github_backup filter (substring test alone) selects it as well. -/
theorem c10_substring_crosstalk (shortName longName label bucket backupDir ts : String)
    (fs tarOk : String → Bool) (stagingFiles : List String)
    (uploadResults : List S3Result)
    (hsub : strIn shortName longName = true)
    (hmem : (longName ++ "_" ++ label ++ ".json") ∈ stagingFiles) :
    (UploadAction.mk (backupDir ++ "/" ++ (longName ++ "_" ++ label ++ ".json")) bucket
        (shortName ++ "/metadata/" ++ (longName ++ "_" ++ label ++ ".json")))
      ∈ LF.upload_backup_to_s3 fs tarOk stagingFiles shortName bucket backupDir ts
    ∧ (longName ++ "_" ++ label ++ ".json")
      ∈ (LF.upload_and_cleanup uploadResults fs stagingFiles shortName backupDir).2.2
    ∧ strIn shortName (longName ++ "_" ++ label ++ ".json") = true := by
  have hin : strIn shortName (longName ++ "_" ++ label ++ ".json") = true :=
    strIn_append_right shortName (longName ++ "_" ++ label) ".json"
      (strIn_append_right shortName (longName ++ "_") label
        (strIn_append_right shortName longName "_" hsub))
  have hend : strEndsWith (longName ++ "_" ++ label ++ ".json") ".json" = true :=
    strEndsWith_of_append (longName ++ "_" ++ label) ".json"
  have hpred : (strIn shortName (longName ++ "_" ++ label ++ ".json")
      && strEndsWith (longName ++ "_" ++ label ++ ".json") ".json") = true := by
    rw [hin, hend]
    rfl
  refine ⟨?_, ?_, hin⟩
  · unfold LF.upload_backup_to_s3
    refine List.mem_append.mpr (Or.inl (List.mem_append.mpr (Or.inr ?_)))
    exact List.mem_map.mpr ⟨longName ++ "_" ++ label ++ ".json",
      List.mem_filter.mpr ⟨hmem, hpred⟩, rfl⟩
  · show (longName ++ "_" ++ label ++ ".json")
      ∈ stagingFiles.filter (fun f => strIn shortName f && strEndsWith f ".json")
    exact List.mem_filter.mpr ⟨hmem, hpred⟩

/-- Claim C10 witness: the app and app-docs pair: with the metadata
file of app-docs in the staging area, processing app uploads that file
under app/metadata/ and deletes it during cleanup, and the
github_backup substring filter selects it as well. -/
theorem c10_substring_crosstalk_witness :
    strIn "app" "app-docs" = true
    ∧ ((UploadAction.mk ("/tmp/backup" ++ "/" ++ ("app-docs" ++ "_" ++ "releases" ++ ".json"))
          "bkt" ("app" ++ "/metadata/" ++ ("app-docs" ++ "_" ++ "releases" ++ ".json")))
        ∈ LF.upload_backup_to_s3 (fun _ => false) (fun _ => false)
            ["app-docs" ++ "_" ++ "releases" ++ ".json"] "app" "bkt" "/tmp/backup" "2026-10-12"
      ∧ ("app-docs" ++ "_" ++ "releases" ++ ".json")
        ∈ (LF.upload_and_cleanup [] (fun _ => false)
            ["app-docs" ++ "_" ++ "releases" ++ ".json"] "app" "/tmp/backup").2.2
      ∧ strIn "app" ("app-docs" ++ "_" ++ "releases" ++ ".json") = true) :=
  ⟨by decide,
   c10_substring_crosstalk "app" "app-docs" "releases" "bkt" "/tmp/backup" "2026-10-12"
     (fun _ => false) (fun _ => false) ["app-docs" ++ "_" ++ "releases" ++ ".json"] []
     (by decide) (by decide)⟩
